import Mathlib

/-!
Verification of the sensory stream components: TextFileStream (file-backed
line stream, src/opencog/atoms/filedir/TextFileStream.cc) and TerminalStream
(PTY-backed terminal session, src/opencog/atoms/terminal/TerminalStream.cc).

The embedding is a shallow one: each C++ member function becomes a pure Lean
function over an explicit state record.  OS effects are made visible in the
return values: file reads are a Bool flag, kill signals are the list of pids
signalled, bytes written are threaded through a String sink, and thrown
exceptions become Except.error values.
-/

/-- Model of the Atomese values that reach prt_value and the drain loop.
string models StringValue (a sequence of strings); node models a Node atom
(carrying its name); link models LinkValue (an ordered container of values);
listLink and setLink model the ListLink and SetLink atoms accepted by the
backwards-compat branch; other models any value of an unsupported type. -/
inductive Value where
  | string (strs : List String)
  | node (name : String)
  | link (vals : List Value)
  | listLink (oset : List Value)
  | setLink (oset : List Value)
  | other

mutual

/-- Model of TextFileStream::prt_value (TextFileStream.cc lines 148-186).
Takes the value to serialize and the bytes already in the sink; returns the
sink after the call together with true on success, or the partially written
sink together with false when the C++ code throws (unsupported value type).
A StringValue writes each element concatenated with no separator; a Node
writes one space then the name; LinkValue, ListLink and SetLink recursively
serialize their members in order. -/
def prtValue : Value → String → String × Bool
  | Value.string strs, sink => (sink ++ String.join strs, true)
  | Value.node name, sink => (sink ++ " " ++ name, true)
  | Value.link vals, sink => prtList vals sink
  | Value.listLink oset, sink => prtList oset sink
  | Value.setLink oset, sink => prtList oset sink
  | Value.other, sink => (sink, false)

/-- Serialize a list of values in order, stopping at the first failure
(the C++ exception propagates; earlier writes persist in the sink). -/
def prtList : List Value → String → String × Bool
  | [], sink => (sink, true)
  | v :: rest, sink =>
    match prtValue v sink with
    | (sink2, true) => prtList rest sink2
    | (sink2, false) => (sink2, false)

end

/-- Result of one run of the drain loop of TextFileStream::write_out
(TextFileStream.cc lines 214-237).  sink is the byte sink after the loop;
pullCount is how many times the loop read the value of the stream
(calls of lvp-value at line 218); ok is false when prt_value threw inside the
loop (the exception propagates out of write_out); finished is false only
when the supplied fuel ran out, which models divergence of the C++ loop. -/
structure DrainResult where
  sink : String
  pullCount : Nat
  ok : Bool
  finished : Bool

/-- One batch of the drain loop: the body of the for loop at TextFileStream.cc
lines 229-234.  An item that is a LinkValue of size zero is skipped and not
counted; any other item is serialized by prt_value and counted.  Returns the
sink, the printed count nprinted, and false when prt_value threw. -/
def drainBatch : List Value → String → String × Nat × Bool
  | [], sink => (sink, 0, true)
  | v :: rest, sink =>
    match v with
    | Value.link [] => drainBatch rest sink
    | _ =>
      match prtValue v sink with
      | (sink2, true) =>
        match drainBatch rest sink2 with
        | (sink3, n, ok) => (sink3, n + 1, ok)
      | (sink2, false) => (sink2, 0, false)

/-- The drain loop of TextFileStream::write_out (lines 216-237).  pulls i is
the batch produced by the i-th read of the stream value (each read of a
LinkStreamValue advances the stream, so successive reads are indexed).
The loop stops when a pull yields an empty batch, or when a non-empty batch
printed nothing (the guard at line 236), or when prt_value throws.  fuel
bounds the number of iterations so the model is total; finished = false
records that fuel ran out. -/
def drainLoop (pulls : Nat → List Value) : Nat → Nat → String → DrainResult
  | 0, _, sink => ⟨sink, 0, true, false⟩
  | fuel + 1, i, sink =>
    match pulls i with
    | [] => ⟨sink, 1, true, true⟩
    | v :: vs =>
      match drainBatch (v :: vs) sink with
      | (sink2, _, false) => ⟨sink2, 1, false, true⟩
      | (sink2, 0, true) => ⟨sink2, 1, true, true⟩
      | (sink2, _ + 1, true) =>
        match drainLoop pulls fuel (i + 1) sink2 with
        | ⟨sink3, c, ok, fin⟩ => ⟨sink3, c + 1, ok, fin⟩

/-- Content to be written, after any evaluation: either an ordinary value, or
a LinkStreamValue whose successive reads yield the indexed batches. -/
inductive WriteContent where
  | value (v : Value)
  | stream (pulls : Nat → List Value)

/-- The cref argument of write_out: either a plain (non-executable) atom
carrying content, or an executable atom whose execution yields the given
result (none models a null ValuePtr from execute). -/
inductive WriteSource where
  | plain (c : WriteContent)
  | executable (r : Option WriteContent)

/-- Result of a write_out call.  outcome is ok or the thrown error; sink is
the byte sink after the call; evalInvoked records whether cref-execute was
called; pullCount and finished are the drain-loop statistics (zero and true
when no drain loop ran). -/
structure WriteResult where
  outcome : Except String Unit
  sink : String
  evalInvoked : Bool
  pullCount : Nat
  finished : Bool

/-- The body of write_out after the open-handle check (TextFileStream.cc
lines 196-238): evaluate cref if executable (a null result throws), then
either serialize a non-stream value directly, or run the drain loop. -/
def doWriteOut (fuel : Nat) (src : WriteSource) (sink : String) : WriteResult :=
  match src with
  | WriteSource.executable none =>
      ⟨Except.error "Expecting something to write", sink, true, 0, true⟩
  | WriteSource.executable (some (WriteContent.value v)) =>
      match prtValue v sink with
      | (sink2, true) => ⟨Except.ok (), sink2, true, 0, true⟩
      | (sink2, false) => ⟨Except.error "Expecting strings", sink2, true, 0, true⟩
  | WriteSource.executable (some (WriteContent.stream pulls)) =>
      match drainLoop pulls fuel 0 sink with
      | ⟨sink2, c, true, fin⟩ => ⟨Except.ok (), sink2, true, c, fin⟩
      | ⟨sink2, c, false, fin⟩ => ⟨Except.error "Expecting strings", sink2, true, c, fin⟩
  | WriteSource.plain (WriteContent.value v) =>
      match prtValue v sink with
      | (sink2, true) => ⟨Except.ok (), sink2, false, 0, true⟩
      | (sink2, false) => ⟨Except.error "Expecting strings", sink2, false, 0, true⟩
  | WriteSource.plain (WriteContent.stream pulls) =>
      match drainLoop pulls fuel 0 sink with
      | ⟨sink2, c, true, fin⟩ => ⟨Except.ok (), sink2, false, c, fin⟩
      | ⟨sink2, c, false, fin⟩ => ⟨Except.error "Expecting strings", sink2, false, c, fin⟩

/-- State of a TextFileStream (the FileLineStream of the spec).  fh models
the FILE handle: none when closed, some lines when open with the given lines
still unread (the backing file read side); fresh is the one-shot warm-up
flag; uri is the retained source URI; value is the current value, a sequence
of values as in LinkValue. -/
structure TextFileStream where
  fh : Option (List String)
  fresh : Bool
  uri : String
  value : List Value

/-- Outcome of TextFileStream::init: the constructed stream or the thrown
error, together with the number of filesystem accesses (fopen calls) made. -/
structure InitOutcome where
  result : Except String TextFileStream
  fsAccesses : Nat

/-- Model of TextFileStream::init (TextFileStream.cc lines 82-109).  The
filesystem is the oracle fs, mapping a path to the lines of the file when
fopen succeeds and to none when fopen fails.  The URL must have the exact
8-character leading part file:/// (the compare at line 86) or the function
throws before touching the filesystem; the path handed to fopen is the URL
minus its first 7 characters (line 94). -/
def TextFileStream.init (url : String) (fs : String → Option (List String)) :
    InitOutcome :=
  if url.take 8 = "file:///" then
    match fs (url.drop 7) with
    | some lines => ⟨Except.ok ⟨some lines, true, url, []⟩, 1⟩
    | none => ⟨Except.error ("Unable to open URL " ++ url), 1⟩
  else
    ⟨Except.error ("Unsupported URL " ++ url), 0⟩

/-- Model of TextFileStream::update (TextFileStream.cc lines 115-144).
Returns the new state and whether a real read of the backing file (an fgets
call) was performed.  Closed handle: clear the value, no read.  Fresh: clear
the flag and produce the single synthetic item holding the URI, no read.
Otherwise fgets: at end of file close the handle and clear the value; else
the value becomes the single item holding the line read. -/
def TextFileStream.update (s : TextFileStream) : TextFileStream × Bool :=
  match s.fh with
  | none => (⟨none, s.fresh, s.uri, []⟩, false)
  | some lines =>
    if s.fresh then
      (⟨some lines, false, s.uri, [Value.node s.uri]⟩, false)
    else
      match lines with
      | [] => (⟨none, s.fresh, s.uri, []⟩, true)
      | l :: rest => (⟨some rest, s.fresh, s.uri, [Value.node l]⟩, true)

/-- Model of TextFileStream::write_out (TextFileStream.cc lines 189-239).
A closed handle throws before anything else, in particular before cref is
executed; otherwise the shared body doWriteOut runs. -/
def TextFileStream.write_out (s : TextFileStream) (fuel : Nat)
    (src : WriteSource) (sink : String) : WriteResult :=
  match s.fh with
  | none =>
      ⟨Except.error ("Text stream not open: URI " ++ s.uri), sink, false, 0, true⟩
  | some _ => doWriteOut fuel src sink

/-- State of a TerminalStream (the TerminalSession of the spec).  fh models
the FILE handle on the slave PTY device: none when closed; xtermPid is the
tracked child process id, 0 when none; value is the current value. -/
structure TerminalStream where
  fh : Option (List String)
  xtermPid : Nat
  value : List Value

/-- Model of TerminalStream::halt (TerminalStream.cc lines 72-83).  Returns
the new state and the list of pids signalled with SIGKILL: the handle is
closed and nulled, the child is killed only when still tracked and the pid
cleared, and the current value is cleared. -/
def TerminalStream.halt (s : TerminalStream) : TerminalStream × List Nat :=
  (⟨none, 0, []⟩, if s.xtermPid = 0 then [] else [s.xtermPid])

/-- Model of the parent side of TerminalStream::init (TerminalStream.cc
lines 85-132): after PTY allocation and fork the parent tracks the child pid
and opens the slave device; openResult is the fopen result at line 131
(unchecked in the C++), and the current value starts empty. -/
def TerminalStream.init (pid : Nat) (openResult : Option (List String)) :
    TerminalStream :=
  ⟨openResult, pid, []⟩

/-- Model of TerminalStream::update (TerminalStream.cc lines 178-196).
Returns the new state and the pids signalled.  Closed handle: clear the
value.  End of file: a full halt.  Otherwise the value becomes the single
item holding the line read.  There is no freshness branch: the first call
already reads. -/
def TerminalStream.update (s : TerminalStream) : TerminalStream × List Nat :=
  match s.fh with
  | none => (⟨none, s.xtermPid, []⟩, [])
  | some [] => s.halt
  | some (l :: rest) => (⟨some rest, s.xtermPid, [Value.node l]⟩, [])

/-- Model of TerminalStream::write_out (TerminalStream.cc lines 207-215).
A closed handle throws before anything else; otherwise it delegates to
do_write_out of the OutputStream base class, which carries the same
evaluation-then-drain protocol as the TextFileStream body (spec section
4.3), modelled here by the shared doWriteOut. -/
def TerminalStream.write_out (s : TerminalStream) (fuel : Nat)
    (src : WriteSource) (sink : String) : WriteResult :=
  match s.fh with
  | none => ⟨Except.error "Text stream not open", sink, false, 0, true⟩
  | some _ => doWriteOut fuel src sink

/-- Holds when s is a possible result of TextFileStream.init. -/
def initOk (s : TextFileStream) : Prop :=
  ∃ url fs, (TextFileStream.init url fs).result = Except.ok s

/-- The states a TextFileStream can be in: constructed by init and advanced
by update (write_out does not modify the stream state fields). -/
inductive FileReach : TextFileStream → Prop where
  | ofInit (s : TextFileStream) : initOk s → FileReach s
  | step (s : TextFileStream) : FileReach s → FileReach s.update.1

/-- The states a TerminalStream can be in: constructed by init and advanced
by update and halt (write_out does not modify the stream state fields). -/
inductive TermReach : TerminalStream → Prop where
  | ofInit (pid : Nat) (openResult : Option (List String)) :
      TermReach (TerminalStream.init pid openResult)
  | step (s : TerminalStream) : TermReach s → TermReach s.update.1
  | ofHalt (s : TerminalStream) : TermReach s → TermReach s.halt.1

/-- A batch consisting entirely of empty LinkValues prints nothing: every
item is skipped, the count stays zero and no byte reaches the sink. -/
theorem drainBatch_all_empty (vals : List Value) (sink : String)
    (h : ∀ v ∈ vals, v = Value.link []) : drainBatch vals sink = (sink, 0, true) := by
  induction vals with
  | nil => rfl
  | cons v rest ih =>
    have hv : v = Value.link [] := h v (List.mem_cons_self v rest)
    subst hv
    exact ih fun w hw => h w (List.mem_cons_of_mem _ hw)

/-- When every pull yields a non-empty batch made only of empty LinkValues,
the drain loop stops after its first pull with nothing written, given any
positive amount of fuel. -/
theorem drainLoop_pathological (pulls : Nat → List Value) (fuel i : Nat)
    (sink : String) (hfuel : 1 ≤ fuel)
    (hpath : ∀ j, pulls j ≠ [] ∧ ∀ v ∈ pulls j, v = Value.link []) :
    drainLoop pulls fuel i sink = ⟨sink, 1, true, true⟩ := by
  cases fuel with
  | zero => exact absurd hfuel (by decide)
  | succ m =>
    cases hp : pulls i with
    | nil => exact absurd hp (hpath i).1
    | cons v vs =>
      have hb : drainBatch (v :: vs) sink = (sink, 0, true) :=
        drainBatch_all_empty (v :: vs) sink (hp ▸ (hpath i).2)
      simp [drainLoop, hp, hb]

/-- Shape of a successfully constructed TextFileStream: the filesystem was
consulted at the URL minus its first 7 characters, and the stream starts
open on those lines, fresh, holding the URL and an empty current value. -/
theorem init_ok_shape (url : String) (fs : String → Option (List String))
    (s : TextFileStream) (h : (TextFileStream.init url fs).result = Except.ok s) :
    ∃ lines, fs (url.drop 7) = some lines ∧
      s = ⟨some lines, true, url, []⟩ := by
  unfold TextFileStream.init at h
  split at h
  · cases h2 : fs (url.drop 7) with
    | none => rw [h2] at h; simp at h
    | some lines =>
      rw [h2] at h
      simp only [Except.ok.injEq] at h
      exact ⟨lines, rfl, h.symm⟩
  · simp at h

/-- Invariant of TextFileStream: in every reachable state a null handle
comes with an empty current value. -/
theorem fileClosedInv (s : TextFileStream) (h : FileReach s) :
    s.fh = none → s.value = [] := by
  induction h with
  | ofInit s h0 =>
    obtain ⟨url, fs, heq⟩ := h0
    obtain ⟨lines, _, hs⟩ := init_ok_shape url fs s heq
    subst hs
    intro hc
    simp at hc
  | step s hs ih =>
    cases h2 : s.fh with
    | none => intro _; simp [TextFileStream.update, h2]
    | some lines =>
      cases h3 : s.fresh with
      | true =>
        intro hc
        simp [TextFileStream.update, h2, h3] at hc
      | false =>
        cases lines with
        | nil => intro _; simp [TextFileStream.update, h2, h3]
        | cons l rest =>
          intro hc
          simp [TextFileStream.update, h2, h3] at hc

/-- Invariant of TerminalStream: in every reachable state a null handle
comes with an empty current value. -/
theorem termClosedInv (s : TerminalStream) (h : TermReach s) :
    s.fh = none → s.value = [] := by
  induction h with
  | ofInit pid openResult =>
    intro _
    rfl
  | step s hs ih =>
    cases h2 : s.fh with
    | none => intro _; simp [TerminalStream.update, h2]
    | some lines =>
      cases lines with
      | nil => intro _; simp [TerminalStream.update, TerminalStream.halt, h2]
      | cons l rest =>
        intro hc
        simp [TerminalStream.update, h2] at hc
  | ofHalt s hs ih =>
    intro _
    rfl

/-- C1: for every streaming content value whose every pull yields a
non-empty batch consisting entirely of empty nested-value wrappers,
write_out terminates: it returns after exactly one batch pull (with success
and nothing written), instead of looping forever. -/
theorem C1_drain_terminates_after_one_pull (s : TextFileStream)
    (lines : List String) (hopen : s.fh = some lines)
    (pulls : Nat → List Value) (fuel : Nat) (hfuel : 1 ≤ fuel)
    (hpath : ∀ j, pulls j ≠ [] ∧ ∀ v ∈ pulls j, v = Value.link [])
    (sink : String) :
    s.write_out fuel (WriteSource.plain (WriteContent.stream pulls)) sink =
      ⟨Except.ok (), sink, false, 1, true⟩ := by
  have hd := drainLoop_pathological pulls fuel 0 sink hfuel hpath
  simp [TextFileStream.write_out, hopen, doWriteOut, hd]

/-- Witness for C1 at a concrete open stream and the constant pathological
producer that always yields one empty LinkValue. -/
theorem C1_witness :
    (⟨some [], false, "file:///f", []⟩ : TextFileStream).write_out 5
      (WriteSource.plain (WriteContent.stream fun _ => [Value.link []])) "ab" =
      ⟨Except.ok (), "ab", false, 1, true⟩ :=
  C1_drain_terminates_after_one_pull _ [] rfl _ 5 (by decide)
    (fun j => ⟨by simp, by simp⟩) "ab"

/-- C2: for a newly constructed FileLineStream the first update produces
exactly one item equal to the original source URI string and performs no
read of the backing file; the second update performs a real read. -/
theorem C2_freshness_consumed_once (url : String)
    (fs : String → Option (List String)) (s : TextFileStream)
    (h : (TextFileStream.init url fs).result = Except.ok s) :
    s.update.1.value = [Value.node url] ∧ s.update.2 = false ∧
      s.update.1.update.2 = true := by
  obtain ⟨lines, _, hs⟩ := init_ok_shape url fs s h
  subst hs
  refine ⟨rfl, rfl, ?_⟩
  cases lines with
  | nil => rfl
  | cons l rest => rfl

/-- Witness for C2 at a concrete URL and a one-line backing file. -/
theorem C2_witness :
    (⟨some ["l"], true, "file:///a", []⟩ : TextFileStream).update.1.value =
        [Value.node "file:///a"] ∧
      (⟨some ["l"], true, "file:///a", []⟩ : TextFileStream).update.2 = false ∧
      (⟨some ["l"], true, "file:///a", []⟩ :
        TextFileStream).update.1.update.2 = true :=
  C2_freshness_consumed_once "file:///a" (fun _ => some ["l"]) _ rfl

/-- C4: for every stream (file or terminal) whose resource handle is closed
and for every content argument, write_out fails with the stream-not-open
error, the sink untouched. -/
theorem C4_write_after_close_fails (s : TextFileStream) (h : s.fh = none)
    (t : TerminalStream) (ht : t.fh = none) (fuel : Nat) (src : WriteSource)
    (sink : String) :
    s.write_out fuel src sink =
      ⟨Except.error ("Text stream not open: URI " ++ s.uri), sink, false, 0, true⟩ ∧
    t.write_out fuel src sink =
      ⟨Except.error "Text stream not open", sink, false, 0, true⟩ := by
  constructor
  · simp [TextFileStream.write_out, h]
  · simp [TerminalStream.write_out, ht]

/-- Witness for C4 at concrete closed streams and a concrete content. -/
theorem C4_witness :
    (⟨none, false, "file:///f", []⟩ : TextFileStream).write_out 3
        (WriteSource.plain (WriteContent.value (Value.node "x"))) "" =
      ⟨Except.error ("Text stream not open: URI " ++ "file:///f"), "", false, 0, true⟩ ∧
    (⟨none, 0, []⟩ : TerminalStream).write_out 3
        (WriteSource.plain (WriteContent.value (Value.node "x"))) "" =
      ⟨Except.error "Text stream not open", "", false, 0, true⟩ :=
  C4_write_after_close_fails _ rfl _ rfl 3 _ ""

/-- C6: serializing a plain text sequence writes each element's raw
characters concatenated with no separator, and serializing a single named
atomic item writes one leading space followed by the item's name; in
particular the sequence of ab and cd yields the bytes abcd, and the item
foo yields one space then foo. -/
theorem C6_serializer_text_and_node (strs : List String) (n sink : String) :
    prtValue (Value.string strs) sink = (sink ++ String.join strs, true) ∧
    prtValue (Value.node n) sink = (sink ++ " " ++ n, true) ∧
    prtValue (Value.string ["ab", "cd"]) "" = ("abcd", true) ∧
    prtValue (Value.node "foo") "" = (" foo", true) :=
  ⟨rfl, rfl, by decide, by decide⟩

/-- C8: halt on a TerminalSession is idempotent: a second call changes
nothing and signals nothing, and one halt already yields the closed state
with a null handle, no tracked child and an empty current value. -/
theorem C8_halt_idempotent (s : TerminalStream) :
    s.halt.1.halt.1 = s.halt.1 ∧ s.halt.1.halt.2 = [] ∧
      s.halt.1 = ⟨none, 0, []⟩ :=
  ⟨rfl, rfl, rfl⟩

/-- An item at the head of a batch that is an empty LinkValue is skipped:
the batch result is that of the remaining items, nothing written, nothing
counted. -/
theorem drainBatch_skip_empty_link (rest : List Value) (sink : String) :
    drainBatch (Value.link [] :: rest) sink = drainBatch rest sink := rfl

/-- An item at the head of a batch that is not an empty LinkValue and that
prt_value serializes successfully is written and counted. -/
theorem drainBatch_counts (v : Value) (rest : List Value) (sink sink2 : String)
    (hne : v ≠ Value.link []) (hpv : prtValue v sink = (sink2, true)) :
    drainBatch (v :: rest) sink =
      (match drainBatch rest sink2 with | (s3, n, ok) => (s3, n + 1, ok)) := by
  cases v with
  | string strs => simp [drainBatch, hpv]
  | node nm => simp [drainBatch, hpv]
  | link vals =>
    cases vals with
    | nil => exact absurd rfl hne
    | cons a as => simp [drainBatch, hpv]
  | listLink oset => simp [drainBatch, hpv]
  | setLink oset => simp [drainBatch, hpv]
  | other => simp [prtValue] at hpv

/-- C3: for both stream kinds, a null resource handle comes with an empty
current value in every reachable state, and on a closed stream update is a
no-op that returns empty content, keeps the handle null (closed is sticky)
and touches no OS resource. -/
theorem C3_closed_empty_and_sticky :
    (∀ s : TextFileStream, FileReach s → s.fh = none → s.value = []) ∧
    (∀ s : TextFileStream, s.fh = none →
      s.update = (⟨none, s.fresh, s.uri, []⟩, false)) ∧
    (∀ s : TerminalStream, TermReach s → s.fh = none → s.value = []) ∧
    (∀ s : TerminalStream, s.fh = none →
      s.update = (⟨none, s.xtermPid, []⟩, [])) := by
  refine ⟨fileClosedInv, ?_, termClosedInv, ?_⟩
  · intro s h
    simp [TextFileStream.update, h]
  · intro s h
    simp [TerminalStream.update, h]

/-- Witness for C3: a file stream driven to end-of-resource (fresh update,
then end-of-file) and a terminal stream driven to end-of-resource both land
in closed states with empty values, and update is a no-op on concrete
closed streams. -/
theorem C3_witness :
    ((⟨some [], true, "file:///f", []⟩ :
        TextFileStream).update.1.update.1).value = [] ∧
    (⟨none, true, "file:///f", []⟩ : TextFileStream).update =
      (⟨none, true, "file:///f", []⟩, false) ∧
    ((TerminalStream.init 7 (some [])).update.1).value = [] ∧
    (⟨none, 7, []⟩ : TerminalStream).update = (⟨none, 7, []⟩, []) := by
  refine ⟨?_, ?_, ?_, ?_⟩
  · exact C3_closed_empty_and_sticky.1 _
      (FileReach.step _ (FileReach.step _
        (FileReach.ofInit _ ⟨"file:///f", fun _ => some [], rfl⟩))) rfl
  · exact C3_closed_empty_and_sticky.2.1 _ rfl
  · exact C3_closed_empty_and_sticky.2.2.1 _
      (TermReach.step _ (TermReach.ofInit 7 (some []))) rfl
  · exact C3_closed_empty_and_sticky.2.2.2 _ rfl

/-- C5: a TerminalSession update has no freshness warm-up (the very first
update after construction already returns the first real line, never a
synthetic value), and update at end-of-resource is a full halt: handle
closed and nulled, a still-tracked child signalled and its id cleared, and
the current value cleared. -/
theorem C5_terminal_no_warmup_eof_halts (pid : Nat) (l : String)
    (rest : List String) (s : TerminalStream) (heof : s.fh = some []) :
    (TerminalStream.init pid (some (l :: rest))).update =
      (⟨some rest, pid, [Value.node l]⟩, []) ∧
    s.update = s.halt ∧
    s.update.1 = ⟨none, 0, []⟩ ∧
    s.update.2 = (if s.xtermPid = 0 then [] else [s.xtermPid]) := by
  refine ⟨rfl, ?_, ?_, ?_⟩ <;>
    simp [TerminalStream.update, TerminalStream.halt, heof]

/-- Witness for C5 at a concrete construction and a concrete stream at
end-of-resource with a tracked child. -/
theorem C5_witness :
    (TerminalStream.init 3 (some ["x"])).update =
      (⟨some [], 3, [Value.node "x"]⟩, []) ∧
    (⟨some [], 5, []⟩ : TerminalStream).update =
      (⟨some [], 5, []⟩ : TerminalStream).halt ∧
    (⟨some [], 5, []⟩ : TerminalStream).update.1 = ⟨none, 0, []⟩ ∧
    (⟨some [], 5, []⟩ : TerminalStream).update.2 =
      (if (⟨some [], 5, []⟩ : TerminalStream).xtermPid = 0 then []
       else [(⟨some [], 5, []⟩ : TerminalStream).xtermPid]) :=
  C5_terminal_no_warmup_eof_halts 3 "x" [] _ rfl

/-- C7: a URI without the exact 8-character leading part file:/// is
rejected with the unsupported-URL error and zero filesystem accesses; an
accepted URI is opened at exactly the path obtained by dropping its first
7 characters, so the retained path keeps its leading slash. -/
theorem C7_uri_scheme_validation (url : String)
    (fs : String → Option (List String)) :
    (url.take 8 ≠ "file:///" →
      TextFileStream.init url fs =
        ⟨Except.error ("Unsupported URL " ++ url), 0⟩) ∧
    (url.take 8 = "file:///" →
      TextFileStream.init url fs =
        (match fs (url.drop 7) with
         | some lines => ⟨Except.ok ⟨some lines, true, url, []⟩, 1⟩
         | none => ⟨Except.error ("Unable to open URL " ++ url), 1⟩)) := by
  constructor
  · intro h
    simp [TextFileStream.init, h]
  · intro h
    simp [TextFileStream.init, h]

/-- Witness for C7: the two URI shapes named by the claim are rejected with
no filesystem access, and a well-formed URI is opened at the path after the
7-character scheme. -/
theorem C7_witness :
    TextFileStream.init "file://host/path" (fun _ => some []) =
      ⟨Except.error ("Unsupported URL " ++ "file://host/path"), 0⟩ ∧
    TextFileStream.init "file:/path" (fun _ => some []) =
      ⟨Except.error ("Unsupported URL " ++ "file:/path"), 0⟩ ∧
    TextFileStream.init "file:///tmp/x"
        (fun p => if p = "/tmp/x" then some ["a"] else none) =
      ⟨Except.ok ⟨some ["a"], true, "file:///tmp/x", []⟩, 1⟩ := by
  refine ⟨(C7_uri_scheme_validation _ _).1 (by decide),
          (C7_uri_scheme_validation _ _).1 (by decide), ?_⟩
  exact ((C7_uri_scheme_validation "file:///tmp/x"
    (fun p => if p = "/tmp/x" then some ["a"] else none)).2 (by decide)).trans rfl

/-- C9: on a closed stream of either kind, write_out raises the
stream-not-open error before any executable content is evaluated: the
evaluator is never invoked. -/
theorem C9_closed_write_never_evaluates (s : TextFileStream) (h : s.fh = none)
    (t : TerminalStream) (ht : t.fh = none) (fuel : Nat)
    (r : Option WriteContent) (sink : String) :
    (s.write_out fuel (WriteSource.executable r) sink).evalInvoked = false ∧
    (s.write_out fuel (WriteSource.executable r) sink).outcome =
      Except.error ("Text stream not open: URI " ++ s.uri) ∧
    (t.write_out fuel (WriteSource.executable r) sink).evalInvoked = false ∧
    (t.write_out fuel (WriteSource.executable r) sink).outcome =
      Except.error "Text stream not open" := by
  simp [TextFileStream.write_out, TerminalStream.write_out, h, ht]

/-- Witness for C9 at concrete closed streams and an executable content
whose evaluation would succeed. -/
theorem C9_witness :
    ((⟨none, false, "file:///f", []⟩ : TextFileStream).write_out 2
      (WriteSource.executable (some (WriteContent.value (Value.node "x"))))
      "").evalInvoked = false ∧
    ((⟨none, false, "file:///f", []⟩ : TextFileStream).write_out 2
      (WriteSource.executable (some (WriteContent.value (Value.node "x"))))
      "").outcome =
      Except.error ("Text stream not open: URI " ++ "file:///f") ∧
    ((⟨none, 9, []⟩ : TerminalStream).write_out 2
      (WriteSource.executable (some (WriteContent.value (Value.node "x"))))
      "").evalInvoked = false ∧
    ((⟨none, 9, []⟩ : TerminalStream).write_out 2
      (WriteSource.executable (some (WriteContent.value (Value.node "x"))))
      "").outcome = Except.error "Text stream not open" :=
  C9_closed_write_never_evaluates _ rfl _ rfl 2 _ ""

/-- C10: in the drain loop an item is skipped and excluded from the printed
count exactly when it is a LinkValue with zero elements; an empty plain
text sequence is serialized (writing no bytes) and still counted, so a
non-empty batch of empty text sequences does not trigger the exhaustion
guard and the loop pulls another batch. -/
theorem C10_skip_only_empty_nested :
    (∀ rest sink, drainBatch (Value.link [] :: rest) sink = drainBatch rest sink) ∧
    (∀ v rest sink sink2, v ≠ Value.link [] → prtValue v sink = (sink2, true) →
      drainBatch (v :: rest) sink =
        (match drainBatch rest sink2 with | (s3, n, ok) => (s3, n + 1, ok))) ∧
    (∀ rest sink, drainBatch (Value.string [] :: rest) sink =
        (match drainBatch rest sink with | (s3, n, ok) => (s3, n + 1, ok))) ∧
    (∀ pulls : Nat → List Value, ∀ fuel sink, pulls 0 = [Value.string []] →
      pulls 1 = [] →
      drainLoop pulls (fuel + 2) 0 sink = ⟨sink, 2, true, true⟩) := by
  have he : ∀ s : String, s ++ "" = s := fun s => by simp
  refine ⟨drainBatch_skip_empty_link, drainBatch_counts, ?_, ?_⟩
  · intro rest sink
    have h2 := drainBatch_counts (Value.string []) rest sink (sink ++ "")
      (by intro hc; cases hc) rfl
    rwa [he sink] at h2
  · intro pulls fuel sink h0 h1
    simp [drainLoop, h0, h1, drainBatch, prtValue, String.join, he]

/-- Witness for C10: the count and sink on concrete one-item batches, and a
concrete producer whose first batch is one empty text sequence and whose
second is empty makes the loop pull twice. -/
theorem C10_witness :
    drainBatch (Value.link [] :: [Value.node "a"]) "" =
      drainBatch [Value.node "a"] "" ∧
    drainBatch [Value.node "a"] "" =
      (match drainBatch [] " a" with | (s3, n, ok) => (s3, n + 1, ok)) ∧
    drainBatch [Value.string []] "b" =
      (match drainBatch [] "b" with | (s3, n, ok) => (s3, n + 1, ok)) ∧
    drainLoop (fun i => if i = 0 then [Value.string []] else []) 7 0 "c" =
      ⟨"c", 2, true, true⟩ :=
  ⟨C10_skip_only_empty_nested.1 [Value.node "a"] "",
   C10_skip_only_empty_nested.2.1 (Value.node "a") [] "" " a"
     (by intro hc; cases hc) rfl,
   C10_skip_only_empty_nested.2.2.1 [] "b",
   C10_skip_only_empty_nested.2.2.2 _ 5 "c" rfl rfl⟩
